import Mathlib

/-!
Verification development for the DCL wearable validator core:
the triangle-budget resolver (`src/lib/budgets.ts`) and the validation
rule engine (`src/lib/runValidation.ts` / `report.ts`).

Embedding conventions:
- TypeScript `number` values are embedded as `Nat` where the source only
  ever holds non-negative integers (counts, byte sizes, budgets) and as
  `ℚ` where fractional arithmetic occurs (ratios, bounding-box meters).
- TS string-union types (`RuleSeverity`, `Slot`) become inductives; the
  free-form `category`/`id` fields stay `String`.
- The optional TS field `handHidesBase?: boolean` (undefined is falsy)
  is embedded as a plain `Bool` defaulting to `false`.
- Locale-dependent string formatting (`toLocaleString`, `toFixed(2)`)
  is abstracted to plain `toString`; no validation decision reads these
  display strings back.
-/

namespace DCLValidator

/-- The closed 15-value slot enumeration from `src/lib/types.ts`. -/
inductive Slot
  | hat
  | helmet
  | upper_body
  | lower_body
  | feet
  | hair
  | mask
  | eyewear
  | earring
  | tiara
  | top_head
  | facial_hair
  | hands
  | skin
  | head
deriving DecidableEq, Repr

/-- Base triangle budgets per slot (`BASE_TRI_BUDGET` in `src/lib/budgets.ts`).
In Lean the record over the closed enum is a total function, so the
source's defensive `|| 0` fallback can never trigger and is dropped. -/
def BASE_TRI_BUDGET : Slot → Nat
  | Slot.hat => 1500
  | Slot.helmet => 1500
  | Slot.upper_body => 1500
  | Slot.lower_body => 1500
  | Slot.feet => 1500
  | Slot.hair => 1500
  | Slot.mask => 500
  | Slot.eyewear => 500
  | Slot.earring => 500
  | Slot.tiara => 500
  | Slot.top_head => 500
  | Slot.facial_hair => 500
  | Slot.hands => 1000
  | Slot.skin => 5000
  | Slot.head => 500

/-- Helmet special case: slots that can be hidden by helmet
(`HELMET_HIDE_SET` in `src/lib/budgets.ts`). -/
def HELMET_HIDE_SET : List Slot :=
  [Slot.head, Slot.earring, Slot.eyewear, Slot.tiara,
   Slot.hat, Slot.facial_hair, Slot.hair, Slot.top_head]

/-- Per-slot budget configuration record (`BudgetConfig` in `src/lib/types.ts`). -/
structure BudgetConfig where
  baseTriangles : Nat
  maxMaterials : Nat
  maxTextures : Nat
  helmetAllHeadHiddenTriangles : Option Nat := none
deriving DecidableEq, Repr

/-- `BASE_BUDGET_CONFIG` from `src/lib/budgets.ts`. -/
def BASE_BUDGET_CONFIG : Slot → BudgetConfig
  | Slot.hat => { baseTriangles := 1500, maxMaterials := 2, maxTextures := 2 }
  | Slot.helmet =>
      { baseTriangles := 1500, maxMaterials := 2, maxTextures := 2,
        helmetAllHeadHiddenTriangles := some 4000 }
  | Slot.upper_body => { baseTriangles := 1500, maxMaterials := 2, maxTextures := 2 }
  | Slot.lower_body => { baseTriangles := 1500, maxMaterials := 2, maxTextures := 2 }
  | Slot.feet => { baseTriangles := 1500, maxMaterials := 2, maxTextures := 2 }
  | Slot.hair => { baseTriangles := 1500, maxMaterials := 2, maxTextures := 2 }
  | Slot.mask => { baseTriangles := 500, maxMaterials := 2, maxTextures := 2 }
  | Slot.eyewear => { baseTriangles := 500, maxMaterials := 2, maxTextures := 2 }
  | Slot.earring => { baseTriangles := 500, maxMaterials := 2, maxTextures := 2 }
  | Slot.tiara => { baseTriangles := 500, maxMaterials := 2, maxTextures := 2 }
  | Slot.top_head => { baseTriangles := 500, maxMaterials := 2, maxTextures := 2 }
  | Slot.facial_hair => { baseTriangles := 500, maxMaterials := 2, maxTextures := 2 }
  | Slot.hands => { baseTriangles := 1000, maxMaterials := 2, maxTextures := 2 }
  | Slot.skin => { baseTriangles := 5000, maxMaterials := 2, maxTextures := 5 }
  | Slot.head => { baseTriangles := 500, maxMaterials := 2, maxTextures := 2 }

/-- `UserSelection` from `src/lib/types.ts`. -/
structure UserSelection where
  targetSlot : Slot
  hiddenSlots : List Slot
  handHidesBase : Bool := false
deriving DecidableEq, Repr

/-- `computeTriangleBudget` from `src/lib/budgets.ts`:
skin is a fixed 5000; hands with the base hand hidden is a fixed 1500;
otherwise the base budget of the target plus the sum over `hiddenSlots`,
overridden to 4000 when the target is helmet and every slot of
`HELMET_HIDE_SET` occurs among `hiddenSlots`. -/
def computeTriangleBudget (selection : UserSelection) : Nat :=
  if selection.targetSlot = Slot.skin then
    5000
  else if selection.targetSlot = Slot.hands ∧ selection.handHidesBase = true then
    1500
  else
    let baseBudget := BASE_TRI_BUDGET selection.targetSlot
    let combinedBudget :=
      baseBudget + selection.hiddenSlots.foldl (fun sum slot => sum + BASE_TRI_BUDGET slot) 0
    if selection.targetSlot = Slot.helmet ∧
        HELMET_HIDE_SET.all (fun slot => selection.hiddenSlots.contains slot) = true then
      4000
    else
      combinedBudget

/-- `getBudgetConfig` from `src/lib/budgets.ts`. -/
def getBudgetConfig (slot : Slot) : BudgetConfig :=
  BASE_BUDGET_CONFIG slot

/-- `isHelmetSpecialRule` from `src/lib/budgets.ts`. -/
def isHelmetSpecialRule (selection : UserSelection) : Bool :=
  selection.targetSlot = Slot.helmet &&
    HELMET_HIDE_SET.all (fun slot => selection.hiddenSlots.contains slot)

/-- Folding `+ BASE_TRI_BUDGET` over a list (the source's `reduce`) equals
the starting accumulator plus the sum of the mapped list. -/
theorem foldl_budget_eq_sum (l : List Slot) (n : Nat) :
    l.foldl (fun sum slot => sum + BASE_TRI_BUDGET slot) n = n + (l.map BASE_TRI_BUDGET).sum := by
  induction l generalizing n with
  | nil => simp
  | cons x xs ih => simp [List.foldl_cons, ih, Nat.add_assoc]

/-- The boolean helmet-hide test in the source is the propositional
"every head-hide slot occurs in the hidden list". -/
theorem helmet_all_hidden_iff (hs : List Slot) :
    HELMET_HIDE_SET.all (fun slot => hs.contains slot) = true ↔
      ∀ s ∈ HELMET_HIDE_SET, s ∈ hs := by
  simp [List.all_eq_true]

/-- Shape lemma: on a helmet-target selection, `computeTriangleBudget`
is the 4000 override exactly when every head-hide slot is hidden, and the
additive sum otherwise. -/
theorem computeTriangleBudget_helmet (hs : List Slot) (hb : Bool) :
    computeTriangleBudget ⟨Slot.helmet, hs, hb⟩ =
      if ∀ s ∈ HELMET_HIDE_SET, s ∈ hs then 4000
      else BASE_TRI_BUDGET Slot.helmet + (hs.map BASE_TRI_BUDGET).sum := by
  simp only [computeTriangleBudget]
  rw [if_neg (by simp), if_neg (by simp)]
  by_cases hAll : ∀ s ∈ HELMET_HIDE_SET, s ∈ hs
  · rw [if_pos hAll, if_pos (by simp only [helmet_all_hidden_iff]; exact ⟨trivial, hAll⟩)]
  · rw [if_neg hAll, if_neg (by simp [helmet_all_hidden_iff, hAll])]
    simp [foldl_budget_eq_sum]

/-- C1: with target helmet, hiding a superset of the eight head-hide slots
(any order, duplicates or extra slots allowed) replaces the additive sum
with exactly 4000; hiding only a proper subset leaves the plain additive
sum. -/
theorem claim_C1_helmet_override :
    (∀ (hs : List Slot) (hb : Bool), (∀ s ∈ HELMET_HIDE_SET, s ∈ hs) →
      computeTriangleBudget ⟨Slot.helmet, hs, hb⟩ = 4000) ∧
    (∀ (hs : List Slot) (hb : Bool), ¬ (∀ s ∈ HELMET_HIDE_SET, s ∈ hs) →
      computeTriangleBudget ⟨Slot.helmet, hs, hb⟩ =
        BASE_TRI_BUDGET Slot.helmet + (hs.map BASE_TRI_BUDGET).sum) := by
  constructor
  · intro hs hb hAll
    rw [computeTriangleBudget_helmet, if_pos hAll]
  · intro hs hb hAll
    rw [computeTriangleBudget_helmet, if_neg hAll]

/-- Concrete instantiation of `claim_C1_helmet_override`: the full head-hide
list (reordered, with an extra slot) yields 4000; hiding only three of the
eight yields the additive sum 1500 + 500 + 500 + 500 = 3000. -/
theorem claim_C1_helmet_override_witness :
    ((∀ s ∈ HELMET_HIDE_SET,
        s ∈ [Slot.hat, Slot.hair, Slot.top_head, Slot.facial_hair, Slot.head,
             Slot.earring, Slot.eyewear, Slot.tiara, Slot.upper_body]) ∧
      computeTriangleBudget
        ⟨Slot.helmet,
         [Slot.hat, Slot.hair, Slot.top_head, Slot.facial_hair, Slot.head,
          Slot.earring, Slot.eyewear, Slot.tiara, Slot.upper_body], false⟩ = 4000) ∧
    ((¬ ∀ s ∈ HELMET_HIDE_SET, s ∈ [Slot.hat, Slot.eyewear, Slot.tiara]) ∧
      computeTriangleBudget ⟨Slot.helmet, [Slot.hat, Slot.eyewear, Slot.tiara], false⟩ =
        BASE_TRI_BUDGET Slot.helmet +
          ([Slot.hat, Slot.eyewear, Slot.tiara].map BASE_TRI_BUDGET).sum) :=
  ⟨⟨by decide, claim_C1_helmet_override.1 _ false (by decide)⟩,
   ⟨by decide, claim_C1_helmet_override.2 _ false (by decide)⟩⟩

/-- C2: with target skin the budget is the fixed 5000, for every hidden-slot
list and every value of `handHidesBase`. -/
theorem claim_C2_skin_fixed (hs : List Slot) (hb : Bool) :
    computeTriangleBudget ⟨Slot.skin, hs, hb⟩ = 5000 := by
  simp [computeTriangleBudget]

/-- C3: outside the three special cases (skin target, hands with the base
hand hidden, helmet with all head-hide slots hidden), the budget is the
target's base plus the base of every occurrence in `hiddenSlots` —
duplicates counted twice. -/
theorem claim_C3_additive_sum (sel : UserSelection)
    (h1 : sel.targetSlot ≠ Slot.skin)
    (h2 : ¬ (sel.targetSlot = Slot.hands ∧ sel.handHidesBase = true))
    (h3 : ¬ (sel.targetSlot = Slot.helmet ∧ ∀ s ∈ HELMET_HIDE_SET, s ∈ sel.hiddenSlots)) :
    computeTriangleBudget sel =
      BASE_TRI_BUDGET sel.targetSlot + (sel.hiddenSlots.map BASE_TRI_BUDGET).sum := by
  simp only [computeTriangleBudget]
  rw [if_neg h1, if_neg h2,
    if_neg (by simp only [helmet_all_hidden_iff]; exact fun hc => h3 ⟨hc.1, hc.2⟩)]
  simp [foldl_budget_eq_sum]

/-- Concrete instantiation of `claim_C3_additive_sum`: target hat with the
duplicated hidden list `[mask, mask]` counts the mask base twice
(1500 + 500 + 500). -/
theorem claim_C3_additive_sum_witness :
    ((⟨Slot.hat, [Slot.mask, Slot.mask], false⟩ : UserSelection).targetSlot ≠ Slot.skin ∧
     ¬ ((⟨Slot.hat, [Slot.mask, Slot.mask], false⟩ : UserSelection).targetSlot = Slot.hands ∧
        (⟨Slot.hat, [Slot.mask, Slot.mask], false⟩ : UserSelection).handHidesBase = true) ∧
     ¬ ((⟨Slot.hat, [Slot.mask, Slot.mask], false⟩ : UserSelection).targetSlot = Slot.helmet ∧
        ∀ s ∈ HELMET_HIDE_SET,
          s ∈ (⟨Slot.hat, [Slot.mask, Slot.mask], false⟩ : UserSelection).hiddenSlots)) ∧
    computeTriangleBudget ⟨Slot.hat, [Slot.mask, Slot.mask], false⟩ =
      BASE_TRI_BUDGET Slot.hat + ([Slot.mask, Slot.mask].map BASE_TRI_BUDGET).sum :=
  ⟨⟨by decide, by decide, by decide⟩,
   claim_C3_additive_sum ⟨Slot.hat, [Slot.mask, Slot.mask], false⟩
     (by decide) (by decide) (by decide)⟩

/-- C4: with target hands and `handHidesBase = true` the budget is the
fixed 1500 for every hidden-slot list; the hidden slots are not summed. -/
theorem claim_C4_hands_hide_base (hs : List Slot) :
    computeTriangleBudget ⟨Slot.hands, hs, true⟩ = 1500 := by
  simp [computeTriangleBudget]

/-- C10: `computeTriangleBudget` is not monotone in `hiddenSlots`: hiding
seven of the eight head-hide slots plus `upper_body`, `lower_body` and
`feet` on a helmet gives the additive 11500, and appending the missing
`head` slot strictly drops the budget to the 4000 override. -/
theorem claim_C10_not_monotone :
    computeTriangleBudget
      ⟨Slot.helmet,
       [Slot.earring, Slot.eyewear, Slot.tiara, Slot.hat, Slot.facial_hair,
        Slot.hair, Slot.top_head, Slot.upper_body, Slot.lower_body, Slot.feet],
       false⟩ = 11500 ∧
    computeTriangleBudget
      ⟨Slot.helmet,
       [Slot.earring, Slot.eyewear, Slot.tiara, Slot.hat, Slot.facial_hair,
        Slot.hair, Slot.top_head, Slot.upper_body, Slot.lower_body, Slot.feet]
         ++ [Slot.head],
       false⟩ = 4000 ∧
    (4000 : Nat) < 11500 := by
  refine ⟨by decide, by decide, by decide⟩

/-- The `RuleSeverity` string union 'PASS' | 'WARN' | 'FAIL' from
`src/lib/types.ts`. -/
inductive RuleSeverity
  | PASS
  | WARN
  | FAIL
deriving DecidableEq, Repr

/-- One entry of `ModelStats.textures`. -/
structure TextureInfo where
  name : String
  width : Nat
  height : Nat
deriving DecidableEq, Repr

/-- `ModelStats.bbox`: bounding-box extents in meters. -/
structure BBox where
  width : ℚ
  height : ℚ
  depth : ℚ
deriving DecidableEq, Repr

/-- `ModelStats.normals`: inverted-normal fractions (feature disabled
upstream, always 0; carried for contract fidelity, never read by a rule). -/
structure NormalsInfo where
  invertedVertexFrac : ℚ
  invertedFaceFrac : ℚ
deriving DecidableEq, Repr

/-- `ModelStats.skinning`: skinned-vertex statistics. -/
structure SkinningInfo where
  totalVertices : Nat
  badWeightVertices : Nat
deriving DecidableEq, Repr

/-- `ModelStats` from `src/lib/types.ts`. `alphaModes` is a TS string
union array ('OPAQUE' | 'MASK' | 'BLEND'), embedded as strings. -/
structure ModelStats where
  triangleCount : Nat
  materialCountExclAvatarSkin : Nat
  textures : List TextureInfo
  usedTextureCount : Nat
  hasNormalMaps : Bool
  hasMetallicRoughnessMaps : Bool
  alphaModes : List String
  bbox : BBox
  normals : NormalsInfo
  skinning : Option SkinningInfo
  fileSizeBytes : Nat
deriving DecidableEq, Repr

/-- `RuleResult` from `src/lib/types.ts`; the optional `tip` is `Option`. -/
structure RuleResult where
  id : String
  category : String
  expected : String
  actual : String
  result : RuleSeverity
  tip : Option String := none
deriving DecidableEq, Repr

/-- `ValidationReport` from `src/lib/types.ts`. -/
structure ValidationReport where
  overall : RuleSeverity
  targetSlot : Slot
  appliedTriangleBudget : Nat
  maxMaterials : Nat
  maxTextures : Nat
  results : List RuleResult
  notes : List String
  fileName : String
  modelStats : ModelStats
deriving DecidableEq, Repr

/-- `validateTriangles` from `src/lib/runValidation.ts`. The FAIL tip
percentage is `Math.ceil(((actual - max) / actual) * 100)`, taken over ℚ. -/
def validateTriangles (modelStats : ModelStats) (maxTriangles : Nat) : RuleResult :=
  let actual := modelStats.triangleCount
  let result : RuleSeverity :=
    if actual ≤ maxTriangles then RuleSeverity.PASS else RuleSeverity.FAIL
  { id := "triangles"
    category := "Geometry"
    expected := "≤ " ++ toString maxTriangles ++ " triangles"
    actual := toString actual ++ " triangles"
    result := result
    tip :=
      if result = RuleSeverity.FAIL then
        some ("Reduce triangles by " ++
          toString ⌈(((actual : ℚ) - (maxTriangles : ℚ)) / (actual : ℚ)) * 100⌉ ++ "%")
      else none }

/-- `validateMaterials` from `src/lib/runValidation.ts`. -/
def validateMaterials (modelStats : ModelStats) (maxMaterials : Nat) : RuleResult :=
  let actual := modelStats.materialCountExclAvatarSkin
  let result : RuleSeverity :=
    if actual ≤ maxMaterials then RuleSeverity.PASS else RuleSeverity.FAIL
  { id := "materials"
    category := "Materials"
    expected := "≤ " ++ toString maxMaterials ++ " materials"
    actual := toString actual ++ " materials"
    result := result
    tip :=
      if result = RuleSeverity.FAIL then
        some ("Remove " ++ toString (actual - maxMaterials) ++
          " material(s) or combine similar materials")
      else none }

/-- `validateTextures` from `src/lib/runValidation.ts`. -/
def validateTextures (modelStats : ModelStats) (maxTextures : Nat) : RuleResult :=
  let actual := modelStats.usedTextureCount
  let result : RuleSeverity :=
    if actual ≤ maxTextures then RuleSeverity.PASS else RuleSeverity.FAIL
  { id := "textures"
    category := "Textures/Maps"
    expected := "≤ " ++ toString maxTextures ++ " textures"
    actual := toString actual ++ " textures"
    result := result
    tip :=
      if result = RuleSeverity.FAIL then
        some ("Remove " ++ toString (actual - maxTextures) ++
          " texture(s) or combine similar textures")
      else none }

/-- `validateTextureSizes` from `src/lib/runValidation.ts`. -/
def validateTextureSizes (modelStats : ModelStats) : RuleResult :=
  let oversizedTextures := modelStats.textures.filter (fun t => 1024 < t.width || 1024 < t.height)
  let result : RuleSeverity :=
    if oversizedTextures.length = 0 then RuleSeverity.PASS else RuleSeverity.FAIL
  { id := "texture-sizes"
    category := "Textures/Maps"
    expected := "All textures ≤ 1024×1024"
    actual :=
      if oversizedTextures.length = 0 then "All textures within size limit"
      else toString oversizedTextures.length ++ " texture(s) exceed 1024×1024"
    result := result
    tip :=
      if result = RuleSeverity.FAIL then
        some ("Resize " ++ String.intercalate (", ") (oversizedTextures.map TextureInfo.name) ++
          " to 1024×1024 or smaller")
      else none }

/-- `validateTextureSquare` from `src/lib/runValidation.ts`. -/
def validateTextureSquare (modelStats : ModelStats) : RuleResult :=
  let nonSquareTextures := modelStats.textures.filter (fun t => t.width ≠ t.height)
  let result : RuleSeverity :=
    if nonSquareTextures.length = 0 then RuleSeverity.PASS else RuleSeverity.WARN
  { id := "texture-square"
    category := "Textures/Maps"
    expected := "All textures are square (recommended)"
    actual :=
      if nonSquareTextures.length = 0 then "All textures are square"
      else toString nonSquareTextures.length ++ " texture(s) are not square"
    result := result
    tip :=
      if result = RuleSeverity.WARN then
        some ("Make " ++ String.intercalate (", ") (nonSquareTextures.map TextureInfo.name) ++
          " square for better performance (optional)")
      else none }

/-- `validateNormalMaps` from `src/lib/runValidation.ts`. -/
def validateNormalMaps (modelStats : ModelStats) : RuleResult :=
  let result : RuleSeverity :=
    if modelStats.hasNormalMaps = false then RuleSeverity.PASS else RuleSeverity.WARN
  { id := "normal-maps"
    category := "Textures/Maps"
    expected := "No normal maps (DCL uses toon shader)"
    actual := if modelStats.hasNormalMaps then "Normal maps detected" else "No normal maps"
    result := result
    tip :=
      if result = RuleSeverity.WARN then
        some ("Remove normal maps - DCL uses toon shader that does not benefit from normal maps")
      else none }

/-- `validateMetallicRoughnessMaps` from `src/lib/runValidation.ts`. -/
def validateMetallicRoughnessMaps (modelStats : ModelStats) : RuleResult :=
  let result : RuleSeverity :=
    if modelStats.hasMetallicRoughnessMaps = false then RuleSeverity.PASS else RuleSeverity.WARN
  { id := "metallic-roughness-maps"
    category := "Textures/Maps"
    expected := "No metallic/roughness maps (DCL uses toon shader)"
    actual :=
      if modelStats.hasMetallicRoughnessMaps then "Metallic/roughness maps detected"
      else "No metallic/roughness maps"
    result := result
    tip :=
      if result = RuleSeverity.WARN then
        some ("Remove metallic/roughness maps - DCL uses toon shader that does not benefit from PBR maps")
      else none }

/-- `validateSkinWeights` from `src/lib/runValidation.ts`. The bad-weight
fraction `badWeightVertices / totalVertices` (JS float division) is taken
over ℚ; the thresholds 0.03 and 0.005 are the exact rationals 3/100 and
5/1000. -/
def validateSkinWeights (modelStats : ModelStats) : RuleResult :=
  match modelStats.skinning with
  | none =>
      { id := "skin-weights"
        category := "Skin Weights"
        expected := "Valid skin weights"
        actual := "No skinning data"
        result := RuleSeverity.PASS
        tip := none }
  | some sk =>
      let badFrac : ℚ := (sk.badWeightVertices : ℚ) / (sk.totalVertices : ℚ)
      let result : RuleSeverity :=
        if 3 / 100 < badFrac then RuleSeverity.FAIL
        else if 5 / 1000 < badFrac then RuleSeverity.WARN
        else RuleSeverity.PASS
      let tip : Option String :=
        if 3 / 100 < badFrac then
          some ("Fix skin weights - more than 3% of vertices have invalid weights")
        else if 5 / 1000 < badFrac then
          some ("Some vertices have invalid skin weights - check weight painting")
        else none
      { id := "skin-weights"
        category := "Skin Weights"
        expected := "≤ 0.5% vertices with bad weights"
        actual := toString sk.badWeightVertices ++ "/" ++ toString sk.totalVertices ++
          " vertices (" ++ toString (badFrac * 100) ++ "%)"
        result := result
        tip := tip }

/-- `validateDimensions` from `src/lib/runValidation.ts`; the meter limits
2.42 / 2.42 / 1.4 are the exact rationals 242/100 and 14/10. -/
def validateDimensions (modelStats : ModelStats) : RuleResult :=
  let maxWidth : ℚ := 242 / 100
  let maxHeight : ℚ := 242 / 100
  let maxDepth : ℚ := 14 / 10
  let exceedsWidth := maxWidth < modelStats.bbox.width
  let exceedsHeight := maxHeight < modelStats.bbox.height
  let exceedsDepth := maxDepth < modelStats.bbox.depth
  let result : RuleSeverity :=
    if exceedsWidth ∨ exceedsHeight ∨ exceedsDepth then RuleSeverity.FAIL
    else RuleSeverity.PASS
  { id := "dimensions"
    category := "Dimensions"
    expected := "≤ 2.42m × 2.42m × 1.4m"
    actual := toString modelStats.bbox.width ++ "m × " ++
      toString modelStats.bbox.height ++ "m × " ++ toString modelStats.bbox.depth ++ "m"
    result := result
    tip :=
      if result = RuleSeverity.FAIL then
        some ("Scale down model to fit within 2.42m × 2.42m × 1.4m bounds")
      else none }

/-- `validateFileIntegrity` from `src/lib/runValidation.ts`. -/
def validateFileIntegrity (modelStats : ModelStats) : RuleResult :=
  let hasZeroTriangles := modelStats.triangleCount = 0
  let hasNoMaterials := modelStats.materialCountExclAvatarSkin = 0
  let issues : List String :=
    (if hasZeroTriangles then ["No triangles found"] else []) ++
    (if hasNoMaterials then ["No materials found"] else [])
  let result : RuleSeverity :=
    if issues.length = 0 then RuleSeverity.PASS else RuleSeverity.FAIL
  { id := "file-integrity"
    category := "File Integrity"
    expected := "Valid model structure"
    actual :=
      if issues.length = 0 then "Model structure is valid"
      else String.intercalate (", ") issues
    result := result
    tip :=
      if result = RuleSeverity.FAIL then
        some ("Check model export - ensure it contains geometry and materials")
      else none }

/-- `validateFileSize` from `src/lib/runValidation.ts`: the size in MB is
`fileSizeBytes / (1024 * 1024)` (exact over ℚ; in JS the divisor is a power
of two, so the float division is exact as well). -/
def validateFileSize (modelStats : ModelStats) : RuleResult :=
  let fileSizeMB : ℚ := (modelStats.fileSizeBytes : ℚ) / (1024 * 1024)
  let maxSizeMB : ℚ := 3
  let recommendedSizeMB : ℚ := 1
  let result : RuleSeverity :=
    if maxSizeMB < fileSizeMB then RuleSeverity.FAIL
    else if recommendedSizeMB < fileSizeMB then RuleSeverity.WARN
    else RuleSeverity.PASS
  let tip : Option String :=
    if maxSizeMB < fileSizeMB then
      some ("File size exceeds DCL limit of 3MB. Reduce file size by optimizing textures or simplifying geometry.")
    else if recommendedSizeMB < fileSizeMB then
      some ("File size is " ++ toString fileSizeMB ++
        "MB. For best performance, keep single items under 1MB (can be up to 2MB if thumbnail is under 1MB).")
    else none
  { id := "file-size"
    category := "File Integrity"
    expected := "≤ 3MB (recommended: ≤ 1MB)"
    actual := toString fileSizeMB ++ "MB"
    result := result
    tip := tip }

/-- `calculateOverallResult` from `src/lib/runValidation.ts`. -/
def calculateOverallResult (results : List RuleResult) : RuleSeverity :=
  let hasFail := results.any (fun r => r.result == RuleSeverity.FAIL)
  let hasWarn := results.any (fun r => r.result == RuleSeverity.WARN)
  if hasFail then RuleSeverity.FAIL
  else if hasWarn then RuleSeverity.WARN
  else RuleSeverity.PASS

/-- `generateNotes` from `src/lib/runValidation.ts` (the `modelStats`
parameter is unused in the source as well). -/
def generateNotes (userSelection : UserSelection) : List String :=
  (if userSelection.targetSlot = Slot.helmet ∧ 0 < userSelection.hiddenSlots.length then
    ["Helmet with hidden slots: triangle budget combines hidden slot budgets."]
   else []) ++
  (if userSelection.targetSlot = Slot.hands ∧ userSelection.handHidesBase = true then
    ["Hand accessory hides base hand: triangle budget increased to 1.5k."]
   else [])

/-- `runValidation` from `src/lib/runValidation.ts`: resolve the budget,
run the fixed rule battery in source order (skin-weights only when skinning
data is present; the inverted-normals rule is commented out in the source),
aggregate the overall severity and assemble the report. -/
def runValidation (modelStats : ModelStats) (userSelection : UserSelection)
    (fileName : String) : ValidationReport :=
  let appliedTriangleBudget := computeTriangleBudget userSelection
  let budgetConfig := getBudgetConfig userSelection.targetSlot
  let results : List RuleResult :=
    [validateTriangles modelStats appliedTriangleBudget,
     validateMaterials modelStats budgetConfig.maxMaterials,
     validateTextures modelStats budgetConfig.maxTextures,
     validateTextureSizes modelStats,
     validateTextureSquare modelStats,
     validateNormalMaps modelStats,
     validateMetallicRoughnessMaps modelStats] ++
    (match modelStats.skinning with
     | some _ => [validateSkinWeights modelStats]
     | none => []) ++
    [validateDimensions modelStats,
     validateFileIntegrity modelStats,
     validateFileSize modelStats]
  let overall := calculateOverallResult results
  let notes := generateNotes userSelection
  { overall := overall
    targetSlot := userSelection.targetSlot
    appliedTriangleBudget := appliedTriangleBudget
    maxMaterials := budgetConfig.maxMaterials
    maxTextures := budgetConfig.maxTextures
    results := results
    notes := notes
    fileName := fileName
    modelStats := modelStats }

/-- Characterization of `calculateOverallResult`: FAIL iff some rule failed,
WARN iff none failed and some warned, PASS iff every rule passed. -/
theorem calculateOverallResult_spec (results : List RuleResult) :
    (calculateOverallResult results = RuleSeverity.FAIL ↔
      ∃ r ∈ results, r.result = RuleSeverity.FAIL) ∧
    (calculateOverallResult results = RuleSeverity.WARN ↔
      (¬ ∃ r ∈ results, r.result = RuleSeverity.FAIL) ∧
        ∃ r ∈ results, r.result = RuleSeverity.WARN) ∧
    (calculateOverallResult results = RuleSeverity.PASS ↔
      ∀ r ∈ results, r.result = RuleSeverity.PASS) := by
  have hFe : (results.any (fun r => r.result == RuleSeverity.FAIL) = true) ↔
      ∃ r ∈ results, r.result = RuleSeverity.FAIL := by
    simp [List.any_eq_true]
  have hWe : (results.any (fun r => r.result == RuleSeverity.WARN) = true) ↔
      ∃ r ∈ results, r.result = RuleSeverity.WARN := by
    simp [List.any_eq_true]
  simp only [calculateOverallResult]
  by_cases hF : results.any (fun r => r.result == RuleSeverity.FAIL) = true
  · rw [if_pos hF]
    obtain ⟨r0, hr0, hr0F⟩ := hFe.mp hF
    refine ⟨iff_of_true rfl ⟨r0, hr0, hr0F⟩,
      iff_of_false (by simp) (fun h => h.1 ⟨r0, hr0, hr0F⟩),
      iff_of_false (by simp) (fun hall => ?_)⟩
    have := hall r0 hr0
    rw [hr0F] at this
    exact RuleSeverity.noConfusion this
  · rw [if_neg hF]
    have hnF : ¬ ∃ r ∈ results, r.result = RuleSeverity.FAIL := fun h => hF (hFe.mpr h)
    by_cases hW : results.any (fun r => r.result == RuleSeverity.WARN) = true
    · rw [if_pos hW]
      obtain ⟨r1, hr1, hr1W⟩ := hWe.mp hW
      refine ⟨iff_of_false (by simp) hnF,
        iff_of_true rfl ⟨hnF, r1, hr1, hr1W⟩,
        iff_of_false (by simp) (fun hall => ?_)⟩
      have := hall r1 hr1
      rw [hr1W] at this
      exact RuleSeverity.noConfusion this
    · rw [if_neg hW]
      have hnW : ¬ ∃ r ∈ results, r.result = RuleSeverity.WARN := fun h => hW (hWe.mpr h)
      have hall : ∀ r ∈ results, r.result = RuleSeverity.PASS := by
        intro r hr
        cases hc : r.result with
        | PASS => rfl
        | WARN => exact absurd ⟨r, hr, hc⟩ hnW
        | FAIL => exact absurd ⟨r, hr, hc⟩ hnF
      exact ⟨iff_of_false (by simp) hnF,
        iff_of_false (by simp) (fun h => hnW h.2),
        iff_of_true rfl hall⟩

/-- C5: the report's overall severity is FAIL when some rule result is FAIL
(warnings notwithstanding), WARN when none is FAIL but some is WARN, and
PASS exactly when every rule result is PASS. -/
theorem claim_C5_overall_aggregation (stats : ModelStats) (sel : UserSelection)
    (fileName : String) :
    ((runValidation stats sel fileName).overall = RuleSeverity.FAIL ↔
      ∃ r ∈ (runValidation stats sel fileName).results, r.result = RuleSeverity.FAIL) ∧
    ((runValidation stats sel fileName).overall = RuleSeverity.WARN ↔
      (¬ ∃ r ∈ (runValidation stats sel fileName).results, r.result = RuleSeverity.FAIL) ∧
        ∃ r ∈ (runValidation stats sel fileName).results, r.result = RuleSeverity.WARN) ∧
    ((runValidation stats sel fileName).overall = RuleSeverity.PASS ↔
      ∀ r ∈ (runValidation stats sel fileName).results, r.result = RuleSeverity.PASS) :=
  calculateOverallResult_spec ((runValidation stats sel fileName).results)

/-- C6: the report's rule list is the fixed ordered battery
triangles, materials, textures, texture-sizes, texture-square, normal-maps,
metallic-roughness-maps, (skin-weights), dimensions, file-integrity,
file-size, where skin-weights appears exactly when skinning data is
present, and no normals-inversion rule ever appears. -/
theorem claim_C6_rule_battery (stats : ModelStats) (sel : UserSelection)
    (fileName : String) :
    ((runValidation stats sel fileName).results.map RuleResult.id =
      if stats.skinning.isSome then
        ["triangles", "materials", "textures", "texture-sizes", "texture-square",
         "normal-maps", "metallic-roughness-maps", "skin-weights", "dimensions",
         "file-integrity", "file-size"]
      else
        ["triangles", "materials", "textures", "texture-sizes", "texture-square",
         "normal-maps", "metallic-roughness-maps", "dimensions",
         "file-integrity", "file-size"]) ∧
    "normals-inversion" ∉ (runValidation stats sel fileName).results.map RuleResult.id := by
  cases hsk : stats.skinning <;>
    simp [runValidation, hsk, validateTriangles, validateMaterials, validateTextures,
      validateTextureSizes, validateTextureSquare, validateNormalMaps,
      validateMetallicRoughnessMaps, validateSkinWeights, validateDimensions,
      validateFileIntegrity, validateFileSize]

/-- C7: with skinning data present (totalVertices > 0), the skin-weights
rule severity is PASS exactly when badWeightVertices/totalVertices ≤ 0.005,
WARN exactly when the ratio is in (0.005, 0.03], and FAIL exactly when it
exceeds 0.03 — both boundaries exclusive; the rule is part of the report's
result list. -/
theorem claim_C7_skin_weight_thresholds (stats : ModelStats) (sel : UserSelection)
    (fileName : String) (t b : Nat)
    (hsk : stats.skinning = some ⟨t, b⟩) (ht : 0 < t) :
    validateSkinWeights stats ∈ (runValidation stats sel fileName).results ∧
    ((validateSkinWeights stats).result = RuleSeverity.PASS ↔
      (b : ℚ) / (t : ℚ) ≤ 5 / 1000) ∧
    ((validateSkinWeights stats).result = RuleSeverity.WARN ↔
      5 / 1000 < (b : ℚ) / (t : ℚ) ∧ (b : ℚ) / (t : ℚ) ≤ 3 / 100) ∧
    ((validateSkinWeights stats).result = RuleSeverity.FAIL ↔
      3 / 100 < (b : ℚ) / (t : ℚ)) := by
  refine ⟨by simp [runValidation, hsk], ?_⟩
  simp only [validateSkinWeights, hsk]
  split_ifs with h3 h5
  · exact ⟨iff_of_false (by simp) (fun h => by
        have : (5 : ℚ) / 1000 < 3 / 100 := by norm_num
        linarith),
      iff_of_false (by simp) (fun h => absurd h3 (not_lt.mpr h.2)),
      iff_of_true rfl h3⟩
  · exact ⟨iff_of_false (by simp) (fun h => absurd h5 (not_lt.mpr h)),
      iff_of_true rfl ⟨h5, not_lt.mp h3⟩,
      iff_of_false (by simp) h3⟩
  · exact ⟨iff_of_true rfl (not_lt.mp h5),
      iff_of_false (by simp) (fun h => h5 h.1),
      iff_of_false (by simp) h3⟩

/-- A concrete skinned model statistics record (1000 skinned vertices, 5 of
them with bad weights: the exact 0.005 boundary). -/
def skinBoundaryStats : ModelStats :=
  { triangleCount := 900
    materialCountExclAvatarSkin := 1
    textures := []
    usedTextureCount := 1
    hasNormalMaps := false
    hasMetallicRoughnessMaps := false
    alphaModes := []
    bbox := { width := 1, height := 1, depth := 1 }
    normals := { invertedVertexFrac := 0, invertedFaceFrac := 0 }
    skinning := some { totalVertices := 1000, badWeightVertices := 5 }
    fileSizeBytes := 1000 }

/-- Concrete instantiation of `claim_C7_skin_weight_thresholds` at the
0.005 boundary (5 bad of 1000 vertices). -/
theorem claim_C7_skin_weight_thresholds_witness :
    (skinBoundaryStats.skinning = some ⟨1000, 5⟩ ∧ 0 < 1000) ∧
    (validateSkinWeights skinBoundaryStats ∈
      (runValidation skinBoundaryStats ⟨Slot.hat, [], false⟩ "model.glb").results ∧
    ((validateSkinWeights skinBoundaryStats).result = RuleSeverity.PASS ↔
      (5 : ℚ) / (1000 : ℚ) ≤ 5 / 1000) ∧
    ((validateSkinWeights skinBoundaryStats).result = RuleSeverity.WARN ↔
      5 / 1000 < (5 : ℚ) / (1000 : ℚ) ∧ (5 : ℚ) / (1000 : ℚ) ≤ 3 / 100) ∧
    ((validateSkinWeights skinBoundaryStats).result = RuleSeverity.FAIL ↔
      3 / 100 < (5 : ℚ) / (1000 : ℚ))) :=
  ⟨⟨rfl, by decide⟩,
    by
      have h := claim_C7_skin_weight_thresholds skinBoundaryStats ⟨Slot.hat, [], false⟩
        "model.glb" 1000 5 rfl (by decide)
      exact_mod_cast h⟩

/-- C8: the triangles rule passes with no tip whenever the triangle count
is at most the resolved budget (equality included), and fails with the
non-empty tip suggesting a reduction of ceil((actual-budget)/actual*100)
percent whenever the count exceeds the budget. -/
theorem claim_C8_triangle_rule (stats : ModelStats) (sel : UserSelection) :
    (stats.triangleCount ≤ computeTriangleBudget sel →
      (validateTriangles stats (computeTriangleBudget sel)).result = RuleSeverity.PASS ∧
      (validateTriangles stats (computeTriangleBudget sel)).tip = none) ∧
    (computeTriangleBudget sel < stats.triangleCount →
      (validateTriangles stats (computeTriangleBudget sel)).result = RuleSeverity.FAIL ∧
      (validateTriangles stats (computeTriangleBudget sel)).tip =
        some ("Reduce triangles by " ++
          toString ⌈(((stats.triangleCount : ℚ) - (computeTriangleBudget sel : ℚ)) /
            (stats.triangleCount : ℚ)) * 100⌉ ++ "%") ∧
      ∀ s, (validateTriangles stats (computeTriangleBudget sel)).tip = some s → s ≠ "") := by
  constructor
  · intro hle
    constructor
    · simp [validateTriangles, hle]
    · simp [validateTriangles, hle]
  · intro hlt
    have hn : ¬ stats.triangleCount ≤ computeTriangleBudget sel := not_le.mpr hlt
    refine ⟨by simp [validateTriangles, hn], by simp [validateTriangles, hn], ?_⟩
    intro s hs
    simp [validateTriangles, hn] at hs
    intro hempty
    rw [← hs] at hempty
    have h2 := congrArg String.length hempty
    simp [String.length_append] at h2
    exact absurd h2.1.1 (by decide)

/-- A model statistics record with 2000 triangles and otherwise benign
values, used to instantiate the triangles rule concretely. -/
def triangleHeavyStats : ModelStats :=
  { triangleCount := 2000
    materialCountExclAvatarSkin := 1
    textures := []
    usedTextureCount := 1
    hasNormalMaps := false
    hasMetallicRoughnessMaps := false
    alphaModes := []
    bbox := { width := 1, height := 1, depth := 1 }
    normals := { invertedVertexFrac := 0, invertedFaceFrac := 0 }
    skinning := none
    fileSizeBytes := 1000 }

/-- Concrete instantiation of `claim_C8_triangle_rule`: 2000 triangles
against the hat budget 1500 fails (tip asks for a ceil(500/2000*100) = 25%
reduction), and 2000 triangles against the exact budget 2000 (hat plus a
hidden mask, 1500 + 500) passes with no tip. -/
theorem claim_C8_triangle_rule_witness :
    (computeTriangleBudget ⟨Slot.hat, [], false⟩ < triangleHeavyStats.triangleCount ∧
      (validateTriangles triangleHeavyStats
        (computeTriangleBudget ⟨Slot.hat, [], false⟩)).result = RuleSeverity.FAIL ∧
      (validateTriangles triangleHeavyStats
        (computeTriangleBudget ⟨Slot.hat, [], false⟩)).tip =
        some ("Reduce triangles by " ++
          toString ⌈(((triangleHeavyStats.triangleCount : ℚ) -
            ((computeTriangleBudget ⟨Slot.hat, [], false⟩ : Nat) : ℚ)) /
            (triangleHeavyStats.triangleCount : ℚ)) * 100⌉ ++ "%") ∧
      ∀ s, (validateTriangles triangleHeavyStats
        (computeTriangleBudget ⟨Slot.hat, [], false⟩)).tip = some s → s ≠ "") ∧
    (triangleHeavyStats.triangleCount ≤ computeTriangleBudget ⟨Slot.hat, [Slot.mask], false⟩ ∧
      (validateTriangles triangleHeavyStats
        (computeTriangleBudget ⟨Slot.hat, [Slot.mask], false⟩)).result = RuleSeverity.PASS ∧
      (validateTriangles triangleHeavyStats
        (computeTriangleBudget ⟨Slot.hat, [Slot.mask], false⟩)).tip = none) :=
  ⟨⟨by decide, (claim_C8_triangle_rule triangleHeavyStats ⟨Slot.hat, [], false⟩).2 (by decide)⟩,
   ⟨by decide, (claim_C8_triangle_rule triangleHeavyStats ⟨Slot.hat, [Slot.mask], false⟩).1 (by decide)⟩⟩

/-- C9: the file-size rule is PASS for at most 1,048,576 bytes (1MB), WARN
strictly above 1MB up to 3 × 1,048,576 bytes, and FAIL strictly above 3MB. -/
theorem claim_C9_file_size_thresholds (stats : ModelStats) :
    ((validateFileSize stats).result = RuleSeverity.PASS ↔
      stats.fileSizeBytes ≤ 1048576) ∧
    ((validateFileSize stats).result = RuleSeverity.WARN ↔
      1048576 < stats.fileSizeBytes ∧ stats.fileSizeBytes ≤ 3 * 1048576) ∧
    ((validateFileSize stats).result = RuleSeverity.FAIL ↔
      3 * 1048576 < stats.fileSizeBytes) := by
  have k3 : ((3 : ℚ) < (stats.fileSizeBytes : ℚ) / (1024 * 1024)) ↔
      3 * 1048576 < stats.fileSizeBytes := by
    rw [lt_div_iff₀ (by norm_num)]
    norm_cast
  have k1 : ((1 : ℚ) < (stats.fileSizeBytes : ℚ) / (1024 * 1024)) ↔
      1048576 < stats.fileSizeBytes := by
    rw [lt_div_iff₀ (by norm_num)]
    norm_cast
  simp only [validateFileSize]
  split_ifs with h3 h1
  · have hn := k3.mp h3
    exact ⟨iff_of_false (by simp) (by omega),
      iff_of_false (by simp) (by omega),
      iff_of_true rfl (by omega)⟩
  · have hn1 := k1.mp h1
    have hn3 : ¬ 3 * 1048576 < stats.fileSizeBytes := fun hh => h3 (k3.mpr hh)
    exact ⟨iff_of_false (by simp) (by omega),
      iff_of_true rfl (by omega),
      iff_of_false (by simp) (by omega)⟩
  · have hn1 : ¬ 1048576 < stats.fileSizeBytes := fun hh => h1 (k1.mpr hh)
    have hn3 : ¬ 3 * 1048576 < stats.fileSizeBytes := fun hh => h3 (k3.mpr hh)
    exact ⟨iff_of_true rfl (by omega),
      iff_of_false (by simp) (by omega),
      iff_of_false (by simp) (by omega)⟩

end DCLValidator
